import Mathlib

/-
Verification of the conformable-type machinery in `amaranth/_utils.py`:
the `ConformableMeta` metaclass (per-family TopType registration and the
`__instancecheck__` / `__subclasscheck__` dispatch) and the
`redirect_subclasses` base-class redirection installer.

The embedding models the observable Python semantics the module relies on:
classes as identifiers with a base list, a C3-linearised MRO and a metaclass;
attribute/slot lookup along MROs; `type.__new__` (including the implicit
`object` base, the metaclass-winner computation and the `__init_subclass__`
call); and class statements (`__build_class__`). Operations that the source
performs with mutation thread an explicit `State`; a Python `raise` is an
`Except.error` paired with the state as mutated so far.
-/

namespace AmaranthUtils

/-- Identity of a class object (Python classes are compared with `is`). -/
abbrev ClassId := Nat

/-- Result of a capability hook: `True`, `False`, `NotImplemented`, or an
exception escaping the hook (the `raise NotImplementedError` stubs on
`ConformableMeta` itself). -/
inductive HookRes where
  | yes
  | no
  | notImplemented
  | raises
deriving DecidableEq

/-- A runtime value: its type plus a tag distinguishing instances, which the
hooks may inspect (Python hooks can look at arbitrary attributes). -/
structure Value where
  ty : ClassId
  tag : Nat
deriving DecidableEq

/-- The exceptions this module can raise.  `duplicateTopType` and
`invalidRedirectTarget` are the `AssertionError`s of `ConformableMeta.__new__`
and `redirect_subclasses` (the spec calls them `DuplicateTopTypeError` and
`InvalidRedirectTargetError`); `missingCapability` is the `TypeError` of
`ConformableMeta.__init_subclass__` (spec: `MissingCapabilityError`);
`metaclassConflict` and `mroConflict` are the `TypeError`s of `type.__new__`. -/
inductive PyErr where
  | duplicateTopType
  | missingCapability
  | invalidRedirectTarget
  | notImplementedError
  | mroConflict
  | metaclassConflict
  | attributeError
  | recursionLimit
deriving DecidableEq

/-- Which `__init_subclass__` a class owns in its namespace: the default no-op
(`object.__init_subclass__`) or `ConformableMeta.__init_subclass__`, which
checks that both capability hooks are present in the new class's namespace. -/
inductive InitSub where
  | noop
  | conformableCheck
deriving DecidableEq

/-- A `__new__` implementation reachable during class construction:
`type.__new__`, `ConformableMeta.__new__`, or a closure installed by
`redirect_subclasses`, which captured `to_cls`'s metaclass and that
metaclass's `__new__` at install time (lines 223-229 of `_utils.py`). -/
inductive NewImpl where
  | typeNew
  | conformableNew
  | redirect (fromCls toCls innerMcls : ClassId) (inner : NewImpl)
deriving DecidableEq

/-- The namespace (own `__dict__`) of a class: the entries this module reads
or writes.  `topSlot` is the name-mangled `_ConformableMeta__top` attribute
(`some none` models `__top = None`), `newSlot` an own `__new__`. -/
structure PyDict where
  isinstHook : Option (Value → HookRes)
  issubHook : Option (ClassId → HookRes)
  topSlot : Option (Option ClassId)
  newSlot : Option NewImpl
  initSub : Option InitSub

/-- A class object: declared bases (after the implicit `object` insertion),
its MRO (headed by itself), its metaclass, and its own namespace. -/
structure ClassObj where
  bases : List ClassId
  mro : List ClassId
  mcls : ClassId
  dict : PyDict

/-- The heap of class objects.  New classes are prepended, so `findC` finds
the most recent binding of an id; `nextId` supplies fresh ids. -/
structure State where
  classes : List (ClassId × ClassObj)
  nextId : ClassId

/-- First entry with the given key in an association list. -/
def findC : List (ClassId × ClassObj) → ClassId → Option ClassObj
  | [], _ => none
  | p :: rest, c => if p.1 = c then some p.2 else findC rest c

/-- The class object registered for an id. -/
def getClass (s : State) (c : ClassId) : Option ClassObj :=
  findC s.classes c

/-- The MRO of a class (empty for a dangling id). -/
def mroOf (s : State) (c : ClassId) : List ClassId :=
  match getClass s c with
  | some o => o.mro
  | none => []

/-- `type(c)`: the metaclass of a class. -/
def mclsOf (s : State) (c : ClassId) : ClassId :=
  match getClass s c with
  | some o => o.mcls
  | none => 0

/-- First own-dict entry for a slot along a list of classes (Python's
`_PyType_Lookup` over an MRO). -/
def lookupSlot {α : Type} (sel : PyDict → Option α) (s : State) : List ClassId → Option α
  | [] => none
  | c :: rest =>
    match getClass s c with
    | none => lookupSlot sel s rest
    | some o =>
      match sel o.dict with
      | some v => some v
      | none => lookupSlot sel s rest

/-- Attribute lookup on a class object for a plain value or function:
first the class's own MRO, then its metaclass's MRO (Python resolves
`cls.attr` through `cls.__mro__` before `type(cls).__mro__` for
non-data descriptors). -/
def classAttr {α : Type} (sel : PyDict → Option α) (s : State) (cls : ClassId) : Option α :=
  match lookupSlot sel s (mroOf s cls) with
  | some v => some v
  | none => lookupSlot sel s (mroOf s (mclsOf s cls))

/-- `cls._ConformableMeta__top`, as read by `__instancecheck__`,
`__subclasscheck__` and `ConformableMeta.__new__`. -/
def classAttrTop (s : State) (cls : ClassId) : Option (Option ClassId) :=
  classAttr (fun d => d.topSlot) s cls

/-- `cls.conformable_isinstance`. -/
def classAttrInstHook (s : State) (cls : ClassId) : Option (Value → HookRes) :=
  classAttr (fun d => d.isinstHook) s cls

/-- `cls.conformable_issubclass`. -/
def classAttrSubHook (s : State) (cls : ClassId) : Option (ClassId → HookRes) :=
  classAttr (fun d => d.issubHook) s cls

/-- The `__new__` used to construct classes under metaclass `m`
(`tp_new`: first owner of `__new__` along `m`'s MRO). -/
def lookupNewD (s : State) (m : ClassId) : NewImpl :=
  match lookupSlot (fun d => d.newSlot) s (mroOf s m) with
  | some i => i
  | none => NewImpl.typeNew

/-- Id of the builtin `object`. -/
def objectId : ClassId := 0

/-- Id of the builtin `type`. -/
def typeId : ClassId := 1

/-- Id of `ConformableMeta`. -/
def conformableMetaId : ClassId := 2

/-- Nominal (default language) instance test, `type.__instancecheck__`:
the second argument appears in the MRO of the value's type. -/
def nominalIsInstance (s : State) (v : Value) (cls : ClassId) : Bool :=
  (mroOf s v.ty).contains cls

/-- Nominal (default language) subclass test, `type.__subclasscheck__`:
`sup` appears in the MRO of `sub`. -/
def nominalSubclass (s : State) (sub sup : ClassId) : Bool :=
  (mroOf s sub).contains sup

/-- Whether membership tests against `cls` dispatch through
`ConformableMeta.__instancecheck__` / `__subclasscheck__`, i.e. whether
`cls`'s metaclass derives from `ConformableMeta`. -/
def hasConformableCheck (s : State) (cls : ClassId) : Bool :=
  (mroOf s (mclsOf s cls)).contains conformableMetaId

/-- `isinstance(v, cls)` as dispatched to `ConformableMeta.__instancecheck__`
(`_utils.py` lines 185-192): for a non-family class the nominal result; for a
family class, nominal unless `cls` is its family's registered TopType, in
which case `cls.conformable_isinstance` decides, with `NotImplemented`
falling back to the nominal result. -/
def isinstance (s : State) (v : Value) (cls : ClassId) : Except PyErr Bool :=
  if hasConformableCheck s cls then
    match classAttrTop s cls with
    | none => Except.error PyErr.attributeError
    | some topv =>
      if topv = some cls then
        match classAttrInstHook s cls with
        | none => Except.error PyErr.attributeError
        | some f =>
          match f v with
          | HookRes.yes => Except.ok true
          | HookRes.no => Except.ok false
          | HookRes.notImplemented => Except.ok (nominalIsInstance s v cls)
          | HookRes.raises => Except.error PyErr.notImplementedError
      else Except.ok (nominalIsInstance s v cls)
  else Except.ok (nominalIsInstance s v cls)

/-- `issubclass(sub, cls)` as dispatched to
`ConformableMeta.__subclasscheck__` (`_utils.py` lines 194-201), symmetric to
`isinstance`. -/
def issubclass (s : State) (sub cls : ClassId) : Except PyErr Bool :=
  if hasConformableCheck s cls then
    match classAttrTop s cls with
    | none => Except.error PyErr.attributeError
    | some topv =>
      if topv = some cls then
        match classAttrSubHook s cls with
        | none => Except.error PyErr.attributeError
        | some g =>
          match g sub with
          | HookRes.yes => Except.ok true
          | HookRes.no => Except.ok false
          | HookRes.notImplemented => Except.ok (nominalSubclass s sub cls)
          | HookRes.raises => Except.error PyErr.notImplementedError
      else Except.ok (nominalSubclass s sub cls)
  else Except.ok (nominalSubclass s sub cls)

/-- C3 head test: `h` appears in the tail of no sequence. -/
def c3ok (h : ClassId) (seqs : List (List ClassId)) : Bool :=
  seqs.all (fun seq => !((seq.drop 1).contains h))

/-- C3 candidate selection: the first sequence head that is in no tail. -/
def c3step (seqs : List (List ClassId)) : Option ClassId :=
  (seqs.filterMap List.head?).find? (fun h => c3ok h seqs)

/-- Fuelled C3 merge (Python's MRO linearisation). -/
def c3merge : Nat → List (List ClassId) → Option (List ClassId)
  | 0, _ => none
  | Nat.succ fuel, seqs =>
    let ne := seqs.filter (fun l => !l.isEmpty)
    if ne.isEmpty then some []
    else
      match c3step ne with
      | none => none
      | some h =>
        match c3merge fuel (ne.map (List.filter (fun x => x != h))) with
        | none => none
        | some rest => some (h :: rest)

/-- Enough fuel for `c3merge`: every step consumes at least one element. -/
def mroFuel (seqs : List (List ClassId)) : Nat :=
  (seqs.map List.length).sum + 1

/-- The MRO tail of a new class with the given (non-empty effective) bases:
C3 merge of the bases' MROs followed by the base list itself. -/
def computeMro (s : State) (bases : List ClassId) : Option (List ClassId) :=
  let seqs := bases.map (fun b => mroOf s b) ++ [bases]
  c3merge (mroFuel seqs) seqs

/-- Replace the dict of the entry for `m` (other entries untouched). -/
def updDict (l : List (ClassId × ClassObj)) (m : ClassId) (f : PyDict → PyDict) :
    List (ClassId × ClassObj) :=
  l.map (fun p => if p.1 = m then (p.1, ⟨p.2.bases, p.2.mro, p.2.mcls, f p.2.dict⟩) else p)

/-- Overwrite the `_ConformableMeta__top` entry of a dict. -/
def withTop (d : PyDict) (v : Option (Option ClassId)) : PyDict :=
  ⟨d.isinstHook, d.issubHook, v, d.newSlot, d.initSub⟩

/-- Overwrite the own `__new__` entry of a dict. -/
def withNew (d : PyDict) (v : Option NewImpl) : PyDict :=
  ⟨d.isinstHook, d.issubHook, d.topSlot, v, d.initSub⟩

/-- `mcls._ConformableMeta__top = cls` (line 140 of `_utils.py`). -/
def setTopSlot (s : State) (m : ClassId) (c : ClassId) : State :=
  ⟨updDict s.classes m (fun d => withTop d (some (some c))), s.nextId⟩

/-- `target_mcls.__new__ = patched` (line 230 of `_utils.py`). -/
def setNewSlot (s : State) (m : ClassId) (impl : NewImpl) : State :=
  ⟨updDict s.classes m (fun d => withNew d (some impl)), s.nextId⟩

/-- The metaclass winner (`_PyType_CalculateMetaclass`): the most derived
among the running candidate and the metaclasses of the bases; incomparable
metaclasses are a `TypeError` (metaclass conflict). -/
def pickWinner (s : State) : ClassId → List ClassId → Except PyErr ClassId
  | w, [] => Except.ok w
  | w, m :: rest =>
    if nominalSubclass s w m then pickWinner s w rest
    else if nominalSubclass s m w then pickWinner s m rest
    else Except.error PyErr.metaclassConflict

/-- The allocation part of `type.__new__` once the winner equals the passed
metaclass: insert the implicit `object` base when the declared base list is
empty, linearise the MRO, allocate the class, then run the inherited
`__init_subclass__` of the first base owning one — `ConformableMeta`'s
raises unless both capability hooks are in the new class's own namespace. -/
def typeNewBuild (s : State) (metatype : ClassId) (bases : List ClassId) (ns : PyDict) :
    State × Except PyErr ClassId :=
  let effBases := if bases.isEmpty then [objectId] else bases
  match computeMro s effBases with
  | none => (s, Except.error PyErr.mroConflict)
  | some linear =>
    let cid := s.nextId
    let s₁ : State := ⟨(cid, ⟨effBases, cid :: linear, metatype, ns⟩) :: s.classes, cid + 1⟩
    match lookupSlot (fun d => d.initSub) s linear with
    | some InitSub.conformableCheck =>
      if ns.isinstHook.isSome && ns.issubHook.isSome then (s₁, Except.ok cid)
      else (s₁, Except.error PyErr.missingCapability)
    | _ => (s₁, Except.ok cid)

/-- Run a `__new__` implementation.  `typeNew` recomputes the metaclass
winner and, when the winner's `tp_new` is not `type.__new__` itself,
re-dispatches to it (CPython `type_new`); `conformableNew` is
`ConformableMeta.__new__` (lines 135-141): the `super().__new__` call
followed, for a declared-baseless class, by the TopType registration with its
duplicate assertion; `redirect` is the closure installed by
`redirect_subclasses` (lines 224-229): substitute `to_cls` for `from_cls` in
the declared bases, then call the captured `to_mcls_new` with `type(to_cls)`
in place of the declared metaclass. -/
def runNew : Nat → NewImpl → State → ClassId → List ClassId → PyDict →
    State × Except PyErr ClassId
  | 0, _, s, _, _, _ => (s, Except.error PyErr.recursionLimit)
  | Nat.succ fuel, NewImpl.typeNew, s, metatype, bases, ns =>
    (match pickWinner s metatype (bases.map (fun b => mclsOf s b)) with
     | Except.error e => (s, Except.error e)
     | Except.ok winner =>
       if winner = metatype then typeNewBuild s metatype bases ns
       else
         match lookupNewD s winner with
         | NewImpl.typeNew => typeNewBuild s winner bases ns
         | impl => runNew fuel impl s winner bases ns)
  | Nat.succ fuel, NewImpl.conformableNew, s, mcls, bases, ns =>
    (match runNew fuel NewImpl.typeNew s mcls bases ns with
     | (s₁, Except.error e) => (s₁, Except.error e)
     | (s₁, Except.ok cid) =>
       if bases.isEmpty then
         match classAttrTop s₁ mcls with
         | some (some _) => (s₁, Except.error PyErr.duplicateTopType)
         | some none => (setTopSlot s₁ mcls cid, Except.ok cid)
         | none => (s₁, Except.error PyErr.attributeError)
       else (s₁, Except.ok cid))
  | Nat.succ fuel, NewImpl.redirect fromCls toCls innerM inner, s, _, bases, ns =>
    runNew fuel inner s innerM (bases.map (fun b => if b = fromCls then toCls else b)) ns

/-- A class statement (`__build_class__`): determine the starting metaclass
(the keyword one, else the first base's type, else `type`), compute the
winner, and invoke the winner's `__new__`. -/
def buildClass (fuel : Nat) (s : State) (explicitM : Option ClassId)
    (bases : List ClassId) (ns : PyDict) : State × Except PyErr ClassId :=
  let start := match explicitM, bases with
    | some m, _ => m
    | none, [] => typeId
    | none, b :: _ => mclsOf s b
  match pickWinner s start (bases.map (fun b => mclsOf s b)) with
  | Except.error e => (s, Except.error e)
  | Except.ok winner => runNew fuel (lookupNewD s winner) s winner bases ns

/-- `redirect_subclasses(target_mcls, from_cls, to_cls)` (lines 204-230):
assert that `target_mcls` is in `type(from_cls).__mro__`, capture
`type(to_cls).__new__`, and overwrite `target_mcls.__new__` with the
substituting closure.  On assertion failure nothing is mutated. -/
def redirect_subclasses (s : State) (targetMcls fromCls toCls : ClassId) :
    State × Except PyErr Unit :=
  if (mroOf s (mclsOf s fromCls)).contains targetMcls then
    (setNewSlot s targetMcls
      (NewImpl.redirect fromCls toCls (mclsOf s toCls) (lookupNewD s (mclsOf s toCls))),
     Except.ok ())
  else (s, Except.error PyErr.invalidRedirectTarget)

/-- A namespace defining nothing this module looks at. -/
def emptyNs : PyDict := ⟨none, none, none, none, none⟩

/-- The builtin `object`: no bases, metaclass `type`, owning the default
no-op `__init_subclass__`. -/
def objectObj : ClassObj :=
  ⟨[], [objectId], typeId, ⟨none, none, none, none, some InitSub.noop⟩⟩

/-- The builtin `type`: base `object`, metaclass `type`, owning
`type.__new__`. -/
def typeObj : ClassObj :=
  ⟨[objectId], [typeId, objectId], typeId, ⟨none, none, none, some NewImpl.typeNew, none⟩⟩

/-- `ConformableMeta` itself: base `type`; its namespace holds
`__top = None`, `__new__`, `__init_subclass__`, and the two capability-hook
stubs that `raise NotImplementedError`. -/
def conformableMetaObj : ClassObj :=
  ⟨[typeId], [conformableMetaId, typeId, objectId], typeId,
   ⟨some (fun _ => HookRes.raises), some (fun _ => HookRes.raises),
    some none, some NewImpl.conformableNew, some InitSub.conformableCheck⟩⟩

/-- The state after the module is imported: `object`, `type` and
`ConformableMeta` exist. -/
def initState : State :=
  ⟨[(objectId, objectObj), (typeId, typeObj), (conformableMetaId, conformableMetaObj)], 3⟩

/-- A demonstration `conformable_isinstance` hook: claims values tagged `7`,
rejects values tagged `8`, defers to nominal behaviour otherwise. -/
def hookTri : Value → HookRes :=
  fun v => if v.tag = 7 then HookRes.yes
    else if v.tag = 8 then HookRes.no else HookRes.notImplemented

/-- A demonstration `conformable_issubclass` hook: claims class `100`,
rejects class `101`, defers otherwise. -/
def hookSubTri : ClassId → HookRes :=
  fun c => if c = 100 then HookRes.yes
    else if c = 101 then HookRes.no else HookRes.notImplemented

/-- A `conformable_issubclass` hook rejecting every candidate. -/
def hookSubNo : ClassId → HookRes := fun _ => HookRes.no

/-- Namespace of an implementer metaclass carrying both demonstration
hooks. -/
def nsA : PyDict := ⟨some hookTri, some hookSubTri, none, none, none⟩

/-- Namespace of an implementer metaclass whose subclass hook always says
no. -/
def nsNo : PyDict := ⟨some hookTri, some hookSubNo, none, none, none⟩

/-- Scenario A, step 1: `class MA(ConformableMeta)` with both hooks —
the family metaclass, id `3`. -/
def stA1 : State := (buildClass 12 initState none [conformableMetaId] nsA).1

/-- Scenario A, step 2: `class TopA(metaclass=MA)` — the family's TopType,
id `4`. -/
def stA2 : State := (buildClass 12 stA1 (some 3) [] emptyNs).1

/-- Scenario A, step 3: `class DerivedA(TopA)` — an ordinary derived type,
id `5`. -/
def stA3 : State := (buildClass 12 stA2 none [4] emptyNs).1

/-- Scenario A, step 4: the allocation half of a second baseless class
statement under `MA` (the `super().__new__` call inside
`ConformableMeta.__new__` before the duplicate assertion fires). -/
def stA4 : State := (runNew 11 NewImpl.typeNew stA3 3 [] emptyNs).1

/-- Scenario C, step 1: `class MC(ConformableMeta)` whose subclass hook
rejects everything — family metaclass, id `3`. -/
def stC1 : State := (buildClass 12 initState none [conformableMetaId] nsNo).1

/-- Scenario C, step 2: `class TopC(metaclass=MC)` — TopType, id `4`. -/
def stC2 : State := (buildClass 12 stC1 (some 3) [] emptyNs).1

/-- Scenario C, step 3: `class FromC(TopC)` — the placeholder, id `5`. -/
def stC3 : State := (buildClass 12 stC2 none [4] emptyNs).1

/-- Scenario C, step 4: `redirect_subclasses(MC, FromC, TopC)` — redirecting
onto the family's TopType. -/
def stC4 : State := (redirect_subclasses stC3 3 5 4).1

/-- Scenario C, step 5: `class FooC(FromC)` — constructed with base `TopC`
through the installed redirection, id `6`. -/
def stC5 : State := (buildClass 12 stC4 none [5] emptyNs).1

/-- Scenario D: `class ConcreteA(TopA)` in scenario A, id `6` —
a redirect target that is not the family's TopType. -/
def stD4 : State := (buildClass 12 stA3 none [4] emptyNs).1

/-- Scenario E, step 1: `class CE(TopA)` in scenario D's state, id `7`
(scenario A's `DerivedA` (id `5`) plays `A`, `ConcreteA` (id `6`) plays
`B`). -/
def stE4 : State := (buildClass 12 stD4 none [4] emptyNs).1

/-- Scenario E, step 2: `class ME2(ConformableMeta)` — an unrelated sibling
family metaclass, id `8`. -/
def stE5 : State := (buildClass 12 stE4 none [conformableMetaId] nsA).1

/-- Scenario E, step 3: `class DE(metaclass=ME2)` — TopType of the sibling
family, id `9`. -/
def stE6 : State := (buildClass 12 stE5 (some 8) [] emptyNs).1

/-- Scenario E, step 4: `redirect_subclasses(MA, 5, 6)` — first rule,
`A → B`, both governed by family `MA`. -/
def stE7 : State := (redirect_subclasses stE6 3 5 6).1

/-- Scenario E, step 5: `redirect_subclasses(MA, 7, 9)` — second rule,
`C → D`, where `D` lives under the unrelated sibling family. -/
def stE8 : State := (redirect_subclasses stE7 3 7 9).1

/-- Scenario F, step 1: `class DF(TopA)` in scenario E's pre-sibling state,
id `8` — a redirect target governed by family `MA` itself. -/
def stF1 : State := (buildClass 12 stE4 none [4] emptyNs).1

/-- Scenario F, step 2: `redirect_subclasses(MA, 5, 6)` — first rule. -/
def stF2 : State := (redirect_subclasses stF1 3 5 6).1

/-- Scenario F, step 3: `redirect_subclasses(MA, 7, 8)` — second rule for a
distinct placeholder, whose target's metaclass carries the already patched
`__new__`, so the first rule is captured as the continuation. -/
def stF3 : State := (redirect_subclasses stF2 3 7 8).1

/-- Scenario F, step 3b: `redirect_subclasses(MA, 5, 8)` — reinstalling a
rule for the same `(family, from_class)` pair as the first rule. -/
def stF4 : State := (redirect_subclasses stF2 3 5 8).1

/-- Updating the dict of class `m` leaves bindings of other ids untouched. -/
theorem findC_upd_ne (l : List (ClassId × ClassObj)) (m : ClassId) (g : PyDict → PyDict)
    (c : ClassId) (hc : c ≠ m) : findC (updDict l m g) c = findC l c := by
  induction l with
  | nil => rfl
  | cons p rest ih =>
    simp only [updDict, List.map_cons] at ih ⊢
    by_cases h2 : p.1 = m
    · have h1 : ¬ p.1 = c := fun h => hc (h.symm.trans h2)
      rw [if_pos h2]
      simp only [findC]
      rw [if_neg h1, if_neg h1]
      exact ih
    · rw [if_neg h2]
      simp only [findC]
      by_cases h1 : p.1 = c
      · rw [if_pos h1, if_pos h1]
      · rw [if_neg h1, if_neg h1]
        exact ih

/-- Updating the dict of class `m` maps its binding through the update,
preserving bases, MRO and metaclass. -/
theorem findC_upd_eq (l : List (ClassId × ClassObj)) (m : ClassId) (g : PyDict → PyDict) :
    findC (updDict l m g) m
      = (findC l m).map (fun o => ⟨o.bases, o.mro, o.mcls, g o.dict⟩) := by
  induction l with
  | nil => rfl
  | cons p rest ih =>
    simp only [updDict, List.map_cons] at ih ⊢
    by_cases h2 : p.1 = m
    · rw [if_pos h2]
      simp only [findC]
      rw [if_pos h2, if_pos h2]
      rfl
    · rw [if_neg h2]
      simp only [findC]
      rw [if_neg h2, if_neg h2]
      exact ih

/-- Slot lookup only consults the classes named in the list. -/
theorem lookupSlot_congr {α : Type} (sel : PyDict → Option α) (s₂ s₁ : State) :
    ∀ l : List ClassId, (∀ x ∈ l, getClass s₂ x = getClass s₁ x) →
      lookupSlot sel s₂ l = lookupSlot sel s₁ l := by
  intro l
  induction l with
  | nil => intro _; rfl
  | cons c rest ih =>
    intro h
    have hc := h c (List.mem_cons_self c rest)
    have hrest := ih (fun x hx => h x (List.mem_cons_of_mem c hx))
    show (match getClass s₂ c with
          | none => lookupSlot sel s₂ rest
          | some o =>
            match sel o.dict with
            | some v => some v
            | none => lookupSlot sel s₂ rest)
        = (match getClass s₁ c with
          | none => lookupSlot sel s₁ rest
          | some o =>
            match sel o.dict with
            | some v => some v
            | none => lookupSlot sel s₁ rest)
    rw [hc, hrest]

/-- Shape of a successful `type.__new__` allocation: the new class gets the
fresh id, the effective bases, the computed linearisation and the passed
metaclass, and is prepended to the heap. -/
theorem typeNewBuild_ok (s : State) (m : ClassId) (bases : List ClassId) (ns : PyDict)
    (s' : State) (c : ClassId) (h : typeNewBuild s m bases ns = (s', Except.ok c)) :
    c = s.nextId ∧ ∃ linear,
      computeMro s (if bases.isEmpty then [objectId] else bases) = some linear ∧
      s' = ⟨(s.nextId, ⟨(if bases.isEmpty then [objectId] else bases),
              s.nextId :: linear, m, ns⟩) :: s.classes, s.nextId + 1⟩ := by
  simp only [typeNewBuild] at h
  split at h
  · simp at h
  · rename_i linear hm
    split at h
    · split at h
      · simp only [Prod.mk.injEq] at h
        obtain ⟨h1, h2⟩ := h
        injection h2 with h2
        exact ⟨h2.symm, linear, hm, h1.symm⟩
      · simp at h
    · simp only [Prod.mk.injEq] at h
      obtain ⟨h1, h2⟩ := h
      injection h2 with h2
      exact ⟨h2.symm, linear, hm, h1.symm⟩

/-- Every element of every input sequence survives a successful C3 merge. -/
theorem c3merge_mem : ∀ (fuel : Nat) (seqs : List (List ClassId)) (out : List ClassId),
    c3merge fuel seqs = some out → ∀ (x : ClassId) (l : List ClassId),
      l ∈ seqs → x ∈ l → x ∈ out := by
  intro fuel
  induction fuel with
  | zero => intro seqs out h; simp [c3merge] at h
  | succ fuel ih =>
    intro seqs out h x l hl hx
    simp only [c3merge] at h
    have hlf : l ∈ seqs.filter (fun l => !l.isEmpty) := by
      refine List.mem_filter.2 ⟨hl, ?_⟩
      cases l with
      | nil => cases hx
      | cons a tl => simp [List.isEmpty]
    split at h
    · rename_i hne
      rw [List.isEmpty_iff] at hne
      rw [hne] at hlf
      cases hlf
    · split at h
      · cases h
      · rename_i hd hstep
        split at h
        · cases h
        · rename_i rest hrec
          injection h with h'
          subst h'
          by_cases hxh : x = hd
          · subst hxh; exact List.mem_cons_self _ _
          · refine List.mem_cons_of_mem _ ?_
            refine ih _ rest hrec x (l.filter fun y => y != hd) ?_ ?_
            · exact List.mem_map_of_mem _ hlf
            · exact List.mem_filter.2 ⟨hx, by simp [hxh]⟩

/-- Every declared base appears in the computed MRO tail. -/
theorem computeMro_mem (s : State) (bases linear : List ClassId)
    (h : computeMro s bases = some linear) : ∀ x ∈ bases, x ∈ linear := by
  intro x hx
  exact c3merge_mem _ _ _ h x bases (List.mem_append_right _ (List.mem_singleton.2 rfl)) hx

/-- Unfolding of slot lookup on a non-empty list. -/
theorem lookupSlot_cons {α : Type} (sel : PyDict → Option α) (s : State) (c : ClassId)
    (rest : List ClassId) :
    lookupSlot sel s (c :: rest) =
      (match getClass s c with
       | none => lookupSlot sel s rest
       | some o =>
         match sel o.dict with
         | some v => some v
         | none => lookupSlot sel s rest) := rfl

/-- Allocating a fresh class (one whose id no existing lookup path can
name) does not change the `__top` attribute seen from `M`. -/
theorem classAttrTop_prepend (s : State) (M cid n : ClassId) (obj : ClassObj)
    (hM : M ≠ cid) (hMc : mclsOf s M ≠ cid)
    (h1 : ¬ cid ∈ mroOf s M) (h2 : ¬ cid ∈ mroOf s (mclsOf s M)) :
    classAttrTop (⟨(cid, obj) :: s.classes, n⟩ : State) M = classAttrTop s M := by
  have hget : ∀ x : ClassId, x ≠ cid →
      getClass (⟨(cid, obj) :: s.classes, n⟩ : State) x = getClass s x := by
    intro x hx
    show (if cid = x then some obj else findC s.classes x) = findC s.classes x
    rw [if_neg (fun h => hx h.symm)]
  have hgM := hget M hM
  have hmro : mroOf (⟨(cid, obj) :: s.classes, n⟩ : State) M = mroOf s M := by
    unfold mroOf
    rw [hgM]
  have hmcls : mclsOf (⟨(cid, obj) :: s.classes, n⟩ : State) M = mclsOf s M := by
    unfold mclsOf
    rw [hgM]
  have hmro2 : mroOf (⟨(cid, obj) :: s.classes, n⟩ : State) (mclsOf s M)
      = mroOf s (mclsOf s M) := by
    unfold mroOf
    rw [hget _ hMc]
  unfold classAttrTop classAttr
  rw [hmro, hmcls, hmro2]
  rw [lookupSlot_congr _ _ s (mroOf s M) (fun x hx => hget x (fun he => h1 (he ▸ hx)))]
  rw [lookupSlot_congr _ _ s (mroOf s (mclsOf s M))
        (fun x hx => hget x (fun he => h2 (he ▸ hx)))]

/-- After `mcls.__top = cls`, the `__top` attribute seen from `mcls` is that
class (the metaclass heads its own MRO, so its own dict wins). -/
theorem classAttrTop_setTop (s : State) (M c : ClassId)
    (hhead : (mroOf s M).head? = some M) :
    classAttrTop (setTopSlot s M c) M = some (some c) := by
  cases hg : getClass s M with
  | none =>
    unfold mroOf at hhead
    rw [hg] at hhead
    cases hhead
  | some o =>
    have hmro : mroOf s M = o.mro := by
      unfold mroOf
      rw [hg]
    cases hmro' : o.mro with
    | nil =>
      rw [hmro, hmro'] at hhead
      cases hhead
    | cons a tl =>
      have ha : a = M := by
        rw [hmro, hmro'] at hhead
        injection hhead
      rw [ha] at hmro'
      have hg2 : getClass (setTopSlot s M c) M
          = some ⟨o.bases, o.mro, o.mcls, withTop o.dict (some (some c))⟩ := by
        show findC (updDict s.classes M (fun d => withTop d (some (some c)))) M = _
        rw [findC_upd_eq]
        show (findC s.classes M).map _ = _
        rw [(show findC s.classes M = some o from hg)]
        rfl
      have hmro2 : mroOf (setTopSlot s M c) M = M :: tl := by
        unfold mroOf
        rw [hg2]
        exact hmro'
      have hls : lookupSlot (fun d => d.topSlot) (setTopSlot s M c) (M :: tl)
          = some (some c) := by
        rw [lookupSlot_cons, hg2]
        rfl
      unfold classAttrTop classAttr
      rw [hmro2, hls]

/-- `__instancecheck__` on a class that is not its family's registered
TopType (or not in a family at all) is the nominal test. -/
theorem isinstance_nontop (s : State) (v : Value) (cls : ClassId) (tv : Option ClassId)
    (htop : classAttrTop s cls = some tv) (hne : tv ≠ some cls) :
    isinstance s v cls = Except.ok (nominalIsInstance s v cls) := by
  unfold isinstance
  cases hcc : hasConformableCheck s cls with
  | false => simp [hcc]
  | true => simp [hcc, htop, hne]

/-- `__instancecheck__` on the registered TopType runs the hook and maps
its result. -/
theorem isinstance_top (s : State) (v : Value) (cls : ClassId) (f : Value → HookRes)
    (hcc : hasConformableCheck s cls = true)
    (htop : classAttrTop s cls = some (some cls))
    (hh : classAttrInstHook s cls = some f) :
    isinstance s v cls =
      (match f v with
       | HookRes.yes => Except.ok true
       | HookRes.no => Except.ok false
       | HookRes.notImplemented => Except.ok (nominalIsInstance s v cls)
       | HookRes.raises => Except.error PyErr.notImplementedError) := by
  unfold isinstance
  simp [hcc, htop, hh]

/-- `__subclasscheck__` on a class that is not its family's registered
TopType is the nominal test. -/
theorem issubclass_nontop (s : State) (sub cls : ClassId) (tv : Option ClassId)
    (htop : classAttrTop s cls = some tv) (hne : tv ≠ some cls) :
    issubclass s sub cls = Except.ok (nominalSubclass s sub cls) := by
  unfold issubclass
  cases hcc : hasConformableCheck s cls with
  | false => simp [hcc]
  | true => simp [hcc, htop, hne]

/-- `__subclasscheck__` on the registered TopType runs the hook and maps
its result. -/
theorem issubclass_top (s : State) (sub cls : ClassId) (g : ClassId → HookRes)
    (hcc : hasConformableCheck s cls = true)
    (htop : classAttrTop s cls = some (some cls))
    (hh : classAttrSubHook s cls = some g) :
    issubclass s sub cls =
      (match g sub with
       | HookRes.yes => Except.ok true
       | HookRes.no => Except.ok false
       | HookRes.notImplemented => Except.ok (nominalSubclass s sub cls)
       | HookRes.raises => Except.error PyErr.notImplementedError) := by
  unfold issubclass
  simp [hcc, htop, hh]

/-- C1: for the registered TopType `T` of a family (a class whose metaclass
derives from `ConformableMeta` and whose `__top` attribute is `T` itself),
`is_instance(v, T)` (i.e. `__instancecheck__` on `T`) returns exactly what
`conformable_isinstance` returns when that hook returns true or false for
`v`, and equals the nominal membership result when the hook returns
`NotImplemented`. -/
theorem confMeta_instancecheck_top (s : State) (T : ClassId) (v : Value)
    (f : Value → HookRes)
    (hcc : hasConformableCheck s T = true)
    (htop : classAttrTop s T = some (some T))
    (hhook : classAttrInstHook s T = some f) :
    (f v = HookRes.yes → isinstance s v T = Except.ok true)
    ∧ (f v = HookRes.no → isinstance s v T = Except.ok false)
    ∧ (f v = HookRes.notImplemented →
        isinstance s v T = Except.ok (nominalIsInstance s v T)) := by
  have he := isinstance_top s v T f hcc htop hhook
  refine ⟨fun h => ?_, fun h => ?_, fun h => ?_⟩ <;> rw [he, h]

/-- Witness for C1: in scenario A, the TopType (id `4`) with the `hookTri`
hook claims the value tagged `7`, so `isinstance` returns true. -/
theorem confMeta_instancecheck_top_witness :
    hasConformableCheck stA3 4 = true
    ∧ classAttrTop stA3 4 = some (some 4)
    ∧ classAttrInstHook stA3 4 = some hookTri
    ∧ hookTri (Value.mk 5 7) = HookRes.yes
    ∧ isinstance stA3 (Value.mk 5 7) 4 = Except.ok true :=
  ⟨rfl, rfl, rfl,
   rfl, (confMeta_instancecheck_top stA3 4 (Value.mk 5 7) hookTri rfl rfl rfl).1 rfl⟩

/-- C2: for every type `D` that is not its family's registered TopType — in
particular every type derived by inheritance from a TopType, whose `__top`
attribute resolves to the family's TopType, not to `D` — and every value
`v`, `is_instance(v, D)` equals the nominal membership result, regardless of
the capability hooks defined on the TopType or its metaclass (no hook
hypothesis appears and the hook is never consulted). -/
theorem confMeta_instancecheck_derived (s : State) (D : ClassId) (v : Value)
    (tv : Option ClassId)
    (htop : classAttrTop s D = some tv) (hne : tv ≠ some D) :
    isinstance s v D = Except.ok (nominalIsInstance s v D) :=
  isinstance_nontop s v D tv htop hne

/-- Witness for C2: in scenario A, `DerivedA` (id `5`, declared with base
the TopType `4`) sees `__top = 4 ≠ 5`, and an instance of the TopType is
nominally not an instance of `DerivedA`, hook notwithstanding. -/
theorem confMeta_instancecheck_derived_witness :
    classAttrTop stA3 5 = some (some 4)
    ∧ (some 4 : Option ClassId) ≠ some 5
    ∧ isinstance stA3 (Value.mk 4 0) 5
        = Except.ok (nominalIsInstance stA3 (Value.mk 4 0) 5) :=
  ⟨rfl, by decide, confMeta_instancecheck_derived stA3 5 (Value.mk 4 0) (some 4) rfl (by decide)⟩

/-- C3: `is_subtype` (i.e. `__subclasscheck__`) behaves symmetrically to
`is_instance`: for any type whose `__top` attribute is not itself it returns
the nominal subclass result unconditionally, and for the registered TopType
it returns the result of `conformable_issubclass` when that hook returns
true or false, falling back to the nominal subclass result on
`NotImplemented`. -/
theorem confMeta_subclasscheck (s : State) (T sub : ClassId) (g : ClassId → HookRes) :
    (∀ tv : Option ClassId, classAttrTop s T = some tv → tv ≠ some T →
      issubclass s sub T = Except.ok (nominalSubclass s sub T))
    ∧ (hasConformableCheck s T = true → classAttrTop s T = some (some T) →
        classAttrSubHook s T = some g →
        (g sub = HookRes.yes → issubclass s sub T = Except.ok true)
        ∧ (g sub = HookRes.no → issubclass s sub T = Except.ok false)
        ∧ (g sub = HookRes.notImplemented →
            issubclass s sub T = Except.ok (nominalSubclass s sub T))) := by
  refine ⟨fun tv htop hne => issubclass_nontop s sub T tv htop hne, ?_⟩
  intro hcc htop hh
  have he := issubclass_top s sub T g hcc htop hh
  refine ⟨fun h => ?_, fun h => ?_, fun h => ?_⟩ <;> rw [he, h]

/-- Witness for C3: in scenario A, the TopType's `hookSubTri` claims class
`100`, so `issubclass` returns true there. -/
theorem confMeta_subclasscheck_witness :
    hasConformableCheck stA3 4 = true
    ∧ classAttrTop stA3 4 = some (some 4)
    ∧ classAttrSubHook stA3 4 = some hookSubTri
    ∧ hookSubTri 100 = HookRes.yes
    ∧ issubclass stA3 100 4 = Except.ok true :=
  ⟨rfl, rfl, rfl, rfl, ((confMeta_subclasscheck stA3 4 100 hookSubTri).2 rfl rfl rfl).1 rfl⟩

/-- C4: at most one TopType per family.  Given the `super().__new__`
allocation of a class declared with an empty base list under metaclass `M`
(`hrun`), `ConformableMeta.__new__` (a) registers the new class as the
family's TopType when `M.__top` is still `None` — the first baseless class
becomes the TopType — and (b) when `M.__top` already holds a TopType `t`,
raises the duplicate assertion (the spec's `DuplicateTopTypeError`) and
leaves the `__top` attribute of `M` still equal to `t`: the failing
construction allocated only a fresh, unreachable class object. -/
theorem confMeta_top_registration (f : Nat) (s s₁ : State) (M c : ClassId) (ns : PyDict)
    (hrun : runNew f NewImpl.typeNew s M [] ns = (s₁, Except.ok c)) :
    ((classAttrTop s₁ M = some none ∧ (mroOf s₁ M).head? = some M) →
      runNew (Nat.succ f) NewImpl.conformableNew s M [] ns
          = (setTopSlot s₁ M c, Except.ok c)
      ∧ classAttrTop (setTopSlot s₁ M c) M = some (some c))
    ∧ (∀ t : ClassId, classAttrTop s M = some (some t) →
        M ≠ s.nextId → mclsOf s M ≠ s.nextId →
        ¬ s.nextId ∈ mroOf s M → ¬ s.nextId ∈ mroOf s (mclsOf s M) →
        runNew (Nat.succ f) NewImpl.conformableNew s M [] ns
            = (s₁, Except.error PyErr.duplicateTopType)
        ∧ classAttrTop s₁ M = some (some t)) := by
  have hb : typeNewBuild s M [] ns = (s₁, Except.ok c) := by
    cases f with
    | zero => simp [runNew] at hrun
    | succ g => simpa [runNew, pickWinner] using hrun
  obtain ⟨hc, linear, hm, hs⟩ := typeNewBuild_ok s M [] ns s₁ c hb
  constructor
  · rintro ⟨ht, hhead⟩
    constructor
    · simp only [runNew]
      rw [hrun]
      simp [ht]
    · exact classAttrTop_setTop s₁ M c hhead
  · intro t ht hMn hMcn h1 h2
    have hfr : classAttrTop s₁ M = classAttrTop s M := by
      rw [hs]
      exact classAttrTop_prepend s M s.nextId (s.nextId + 1) _ hMn hMcn h1 h2
    have ht₁ : classAttrTop s₁ M = some (some t) := hfr.trans ht
    constructor
    · simp only [runNew]
      rw [hrun]
      simp [ht₁]
    · exact ht₁

/-- Witness for C4: in scenario A the TopType `4` is already registered for
family `MA` (id `3`); a second baseless class statement under `MA` allocates
id `6` and then fails with the duplicate error, `__top` still `4`. -/
theorem confMeta_top_registration_witness :
    runNew 11 NewImpl.typeNew stA3 3 [] emptyNs = (stA4, Except.ok 6)
    ∧ classAttrTop stA3 3 = some (some 4)
    ∧ 3 ≠ stA3.nextId
    ∧ mclsOf stA3 3 ≠ stA3.nextId
    ∧ ¬ stA3.nextId ∈ mroOf stA3 3
    ∧ ¬ stA3.nextId ∈ mroOf stA3 (mclsOf stA3 3)
    ∧ runNew 12 NewImpl.conformableNew stA3 3 [] emptyNs
        = (stA4, Except.error PyErr.duplicateTopType)
    ∧ classAttrTop stA4 3 = some (some 4) := by
  refine ⟨rfl, rfl, by decide, by decide, by decide, by decide, ?_⟩
  exact (confMeta_top_registration 11 stA3 stA4 3 6 emptyNs rfl).2 4 rfl (by decide)
    (by decide) (by decide) (by decide)

/-- Counterexample to C5: types created under a family's metaclass without
supplying the capability hooks do NOT fail.  In scenario A the TopType
(`class TopA(metaclass=MA)`, empty namespace, id `4`) and a derived class
(`class DerivedA(TopA)`, empty namespace, id `5`) are both constructed
successfully; the claimed `MissingCapabilityError` is not raised.
`ConformableMeta.__init_subclass__` fires only for classes deriving from
`ConformableMeta` itself (new implementer metaclasses), because Python's
`__init_subclass__` is looked up along the new class's base MRO, which for
a class merely constructed with the metaclass never reaches
`ConformableMeta`. -/
theorem hookless_under_meta_cex :
    (buildClass 12 stA1 (some 3) [] emptyNs).2 = Except.ok 4
    ∧ (buildClass 12 stA1 (some 3) [] emptyNs).2 ≠ Except.error PyErr.missingCapability
    ∧ emptyNs.isinstHook = none
    ∧ (buildClass 12 stA2 none [4] emptyNs).2 = Except.ok 5
    ∧ (buildClass 12 stA2 none [4] emptyNs).2 ≠ Except.error PyErr.missingCapability := by
  refine ⟨rfl, fun h => ?_, rfl, rfl, fun h => ?_⟩ <;> exact Except.noConfusion h

/-- C5 (amended): the hook-presence check of
`ConformableMeta.__init_subclass__` applies exactly to the types whose MRO
reaches `ConformableMeta`'s `__init_subclass__` — the implementer
metaclasses deriving from `ConformableMeta` — and such a definition lacking
either `conformable_isinstance` or `conformable_issubclass` in its own
namespace fails at definition time with the `TypeError` the spec calls
`MissingCapabilityError`; a type whose inherited `__init_subclass__` is the
default no-op (the case for every class merely constructed under the
metaclass, whose bases are `object` or other instance-level classes) is
never subjected to the check. -/
theorem initSubclass_capability_check (s : State) (m : ClassId) (bases : List ClassId)
    (ns : PyDict) (linear : List ClassId)
    (hmro : computeMro s (if bases.isEmpty then [objectId] else bases) = some linear) :
    (lookupSlot (fun d => d.initSub) s linear = some InitSub.conformableCheck →
      (ns.isinstHook.isSome && ns.issubHook.isSome) = false →
      (typeNewBuild s m bases ns).2 = Except.error PyErr.missingCapability)
    ∧ (lookupSlot (fun d => d.initSub) s linear = some InitSub.noop →
      (typeNewBuild s m bases ns).2 = Except.ok s.nextId) := by
  constructor
  · intro h1 h2
    simp only [typeNewBuild]
    split
    · rename_i hm2
      rw [hmro] at hm2
      cases hm2
    · rename_i linear2 hm2
      rw [hmro] at hm2
      injection hm2 with hm2
      subst hm2
      split
      · simp [h2]
      · rename_i hne
        exact absurd h1 (by simpa using hne)
  · intro h1
    simp only [typeNewBuild]
    split
    · rename_i hm2
      rw [hmro] at hm2
      cases hm2
    · rename_i linear2 hm2
      rw [hmro] at hm2
      injection hm2 with hm2
      subst hm2
      split
      · rename_i heq
        rw [h1] at heq
        simp at heq
      · rfl

/-- Witness for C5: `class M(ConformableMeta)` with an empty namespace —
the MRO tail `[ConformableMeta, type, object]` reaches the checking
`__init_subclass__`, and the definition fails with the missing-capability
error. -/
theorem initSubclass_capability_check_witness :
    computeMro initState [conformableMetaId] = some [2, 1, 0]
    ∧ lookupSlot (fun d => d.initSub) initState [2, 1, 0] = some InitSub.conformableCheck
    ∧ (emptyNs.isinstHook.isSome && emptyNs.issubHook.isSome) = false
    ∧ (typeNewBuild initState 1 [conformableMetaId] emptyNs).2
        = Except.error PyErr.missingCapability :=
  ⟨rfl, rfl, rfl,
   (initSubclass_capability_check initState 1 [conformableMetaId] emptyNs [2, 1, 0] rfl).1
     rfl rfl⟩

/-- Counterexample to C6: in scenario C, after
`redirect_subclasses(MC, FromC, TopC)` the declaration
`class FooC(FromC)` does yield a class whose actual base is the target
`TopC` (id `4`), but `issubclass(FooC, TopC)` is `False`, not `True`: the
redirect target is the family's registered TopType and its
`conformable_issubclass` hook rejects `FooC`, overriding the nominal result
(which is true).  The claim's unconditional `issubclass(Foo, to_class) is
true` is therefore false on the code. -/
theorem redirect_issubclass_cex :
    (buildClass 12 stC4 none [5] emptyNs).2 = Except.ok 6
    ∧ ((getClass stC5 6).map ClassObj.bases) = some [4]
    ∧ nominalSubclass stC5 6 4 = true
    ∧ issubclass stC5 6 4 = Except.ok false :=
  ⟨rfl, rfl, rfl, rfl⟩

/-- C6 (amended): after installing a redirection of `F` to `T` in a family,
a class declared with `F` among its bases is constructed with each
occurrence of `F` replaced by `T` (other bases untouched, order preserved —
the base list is exactly the pointwise substitution), the new class has `T`
as an actual base and in its MRO (the nominal subclass result is true), and
`issubclass` of the new class against `T` returns true provided `T` is not
itself the registered TopType of a conformable family (i.e. whenever `T`'s
`__top` attribute is not `T`, so its membership test is nominal). -/
theorem redirect_substituted_construction (f : Nat) (s s' : State)
    (F T im m₀ c : ClassId) (bases : List ClassId) (ns : PyDict)
    (hF : F ∈ bases)
    (hwin : pickWinner s im
        ((bases.map (fun b => if b = F then T else b)).map (fun b => mclsOf s b))
        = Except.ok im)
    (hbuild : typeNewBuild s im (bases.map (fun b => if b = F then T else b)) ns
        = (s', Except.ok c)) :
    runNew (f + 3) (NewImpl.redirect F T im NewImpl.conformableNew) s m₀ bases ns
        = (s', Except.ok c)
    ∧ ((getClass s' c).map ClassObj.bases)
        = some (bases.map (fun b => if b = F then T else b))
    ∧ T ∈ bases.map (fun b => if b = F then T else b)
    ∧ nominalSubclass s' c T = true
    ∧ (∀ tv : Option ClassId, classAttrTop s' T = some tv → tv ≠ some T →
        issubclass s' c T = Except.ok true) := by
  have hne : bases ≠ [] := List.ne_nil_of_mem hF
  have hne' : bases.map (fun b => if b = F then T else b) ≠ [] := by
    simpa using hne
  have hfalse : (bases.map (fun b => if b = F then T else b)).isEmpty = false := by
    cases hbm : bases.map (fun b => if b = F then T else b) with
    | nil => exact absurd hbm hne'
    | cons a tl => rfl
  have hif : (if (bases.map (fun b => if b = F then T else b)).isEmpty then [objectId]
        else bases.map (fun b => if b = F then T else b))
      = bases.map (fun b => if b = F then T else b) := by
    rw [hfalse]
    simp
  obtain ⟨hc, linear, hm, hs⟩ :=
    typeNewBuild_ok s im (bases.map (fun b => if b = F then T else b)) ns s' c hbuild
  rw [hif] at hm hs
  have hmemT : T ∈ bases.map (fun b => if b = F then T else b) :=
    List.mem_map.2 ⟨F, hF, by simp⟩
  have e2 : runNew (f + 2) NewImpl.conformableNew s im
      (bases.map (fun b => if b = F then T else b)) ns = (s', Except.ok c) := by
    show runNew (Nat.succ (f + 1)) NewImpl.conformableNew s im
      (bases.map (fun b => if b = F then T else b)) ns = (s', Except.ok c)
    simp only [runNew]
    rw [hwin]
    simp [hbuild, hfalse]
  have e1 : runNew (f + 3) (NewImpl.redirect F T im NewImpl.conformableNew) s m₀ bases ns
      = (s', Except.ok c) :=
    (rfl : runNew (f + 3) (NewImpl.redirect F T im NewImpl.conformableNew) s m₀ bases ns
        = runNew (f + 2) NewImpl.conformableNew s im
            (bases.map (fun b => if b = F then T else b)) ns).trans e2
  subst hc
  have hgc : getClass s' s.nextId
      = some ⟨bases.map (fun b => if b = F then T else b),
              s.nextId :: linear, im, ns⟩ := by
    rw [hs]
    show (if s.nextId = s.nextId then _ else findC s.classes s.nextId) = _
    rw [if_pos rfl]
  have hmroc : mroOf s' s.nextId = s.nextId :: linear := by
    unfold mroOf
    rw [hgc]
  have hnom : nominalSubclass s' s.nextId T = true := by
    have hmem : T ∈ mroOf s' s.nextId := by
      rw [hmroc]
      exact List.mem_cons_of_mem _ (computeMro_mem s _ linear hm T hmemT)
    simpa [nominalSubclass] using hmem
  refine ⟨e1, ?_, hmemT, hnom, ?_⟩
  · rw [hgc]
    rfl
  · intro tv htv hnetv
    rw [issubclass_nontop s' s.nextId T tv htv hnetv, hnom]

/-- Witness for C6 (amended): in scenario D the family `MA` redirects
`DerivedA` (id `5`) to `ConcreteA` (id `6`, not the TopType); declaring a
class with base list `[5]` builds id `7` with actual bases `[6]`, and
`issubclass` against `ConcreteA` is true. -/
theorem redirect_substituted_construction_witness :
    (5 : ClassId) ∈ [5]
    ∧ pickWinner stD4 3 (([5].map (fun b => if b = 5 then 6 else b)).map
        (fun b => mclsOf stD4 b)) = Except.ok 3
    ∧ typeNewBuild stD4 3 ([5].map (fun b => if b = 5 then 6 else b)) emptyNs
        = ((typeNewBuild stD4 3 [6] emptyNs).1, Except.ok 7)
    ∧ runNew 12 (NewImpl.redirect 5 6 3 NewImpl.conformableNew) stD4 3 [5] emptyNs
        = ((typeNewBuild stD4 3 [6] emptyNs).1, Except.ok 7)
    ∧ ((getClass (typeNewBuild stD4 3 [6] emptyNs).1 7).map ClassObj.bases) = some [6]
    ∧ classAttrTop (typeNewBuild stD4 3 [6] emptyNs).1 6 = some (some 4)
    ∧ issubclass (typeNewBuild stD4 3 [6] emptyNs).1 7 6 = Except.ok true := by
  have hmain := redirect_substituted_construction 9 stD4
    ((typeNewBuild stD4 3 [6] emptyNs).1) 5 6 3 3 7 [5] emptyNs
    (by decide) rfl rfl
  exact ⟨by decide, rfl, rfl, hmain.1, by simpa using hmain.2.1,
    rfl, hmain.2.2.2.2 (some 4) rfl (by decide)⟩

/-- C7: a redirection rule is not retroactive.  For every class id, the
class object after `redirect_subclasses` (whether the call succeeded or
failed its assertion) has exactly the bases, MRO and metaclass it had
before: the install only replaces `target_mcls.__new__`, affecting future
construction, never the base tuple of an already-built class. -/
theorem redirect_not_retroactive (s : State) (tm F T c : ClassId) :
    ((getClass (redirect_subclasses s tm F T).1 c).map ClassObj.bases)
      = ((getClass s c).map ClassObj.bases)
    ∧ ((getClass (redirect_subclasses s tm F T).1 c).map ClassObj.mro)
      = ((getClass s c).map ClassObj.mro)
    ∧ ((getClass (redirect_subclasses s tm F T).1 c).map ClassObj.mcls)
      = ((getClass s c).map ClassObj.mcls) := by
  unfold redirect_subclasses
  cases hg : (mroOf s (mclsOf s F)).contains tm with
  | false => simp [hg]
  | true =>
    simp only [hg, if_true]
    simp only [setNewSlot, getClass]
    by_cases hc : c = tm
    · subst hc
      rw [findC_upd_eq]
      cases findC s.classes c with
      | none => exact ⟨rfl, rfl, rfl⟩
      | some o => exact ⟨rfl, rfl, rfl⟩
    · rw [findC_upd_ne _ _ _ _ hc]
      exact ⟨rfl, rfl, rfl⟩

/-- C8: `redirect_subclasses` raises its assertion (the spec's
`InvalidRedirectTargetError`) whenever the target metaclass is not in
`type(from_cls).__mro__`, and in that case returns with the state literally
unchanged: the check precedes every mutation. -/
theorem redirect_invalid_target (s : State) (tm F T : ClassId)
    (h : ((mroOf s (mclsOf s F)).contains tm) = false) :
    redirect_subclasses s tm F T = (s, Except.error PyErr.invalidRedirectTarget) := by
  unfold redirect_subclasses
  have h' : ¬ tm ∈ mroOf s (mclsOf s F) := by simpa using h
  simp [h']

/-- Witness for C8: in scenario E, `DE` (id `9`) is governed by the sibling
metaclass `ME2` (id `8`), whose MRO does not contain `MA` (id `3`), so
redirecting it through family `MA` fails and the state is unchanged. -/
theorem redirect_invalid_target_witness :
    ((mroOf stE6 (mclsOf stE6 9)).contains 3) = false
    ∧ redirect_subclasses stE6 3 9 4 = (stE6, Except.error PyErr.invalidRedirectTarget) :=
  ⟨rfl, redirect_invalid_target stE6 3 9 4 rfl⟩

/-- Counterexample to C9: rules for distinct `from_class` values under the
same family are NOT independent.  In scenario E, after installing
`(MA, 5, 6)` a class declared with base `5` is built with base `6` (the
rule works); after additionally installing `(MA, 7, 9)` — whose target `9`
lives under the unrelated sibling metaclass `ME2` — the same declaration no
longer yields a class with base `6`: the second install overwrote the
family's patched `__new__`, its captured continuation is
`ConformableMeta.__new__` under `ME2`, and the construction now fails with
a metaclass conflict (`type.__new__` sees base `5` governed by `MA` while
being asked to build under `ME2`). -/
theorem redirect_second_install_cex :
    (buildClass 12 stE7 none [5] emptyNs).2 = Except.ok 10
    ∧ ((getClass (buildClass 12 stE7 none [5] emptyNs).1 10).map ClassObj.bases)
        = some [6]
    ∧ (buildClass 12 stE8 none [5] emptyNs).2 = Except.error PyErr.metaclassConflict :=
  ⟨rfl, rfl, rfl⟩

/-- C9 (amended): the family's redirection state is its single patched
`__new__`; installing a rule for the same `(family, from_class)` pair
overwrites the prior one behaviourally, and rules for distinct
`from_class` values compose exactly when the later install's `to_cls` is
governed by the family, so that the previously patched `__new__` is
captured as the continuation.  In scenario F (`A` = 5, `B` = 6, `C` = 7,
`D` = 8, all under family `MA`): after installing `(MA, A, B)` then
`(MA, C, D)`, declaring a class with base `A` yields a class with base `B`
and declaring one with base `C` yields a class with base `D`; after
installing `(MA, A, B)` then `(MA, A, D)` for the same pair, declaring with
base `A` yields a class with base `D`. -/
theorem redirect_overwrite_chain :
    ((getClass (buildClass 12 stF3 none [5] emptyNs).1 9).map ClassObj.bases)
        = some [6]
    ∧ ((getClass (buildClass 12 stF3 none [7] emptyNs).1 9).map ClassObj.bases)
        = some [8]
    ∧ ((getClass (buildClass 12 stF4 none [5] emptyNs).1 9).map ClassObj.bases)
        = some [8] :=
  ⟨rfl, rfl, rfl⟩

/-- C10: installing a redirection affects the construction path of every
future class in the family, not only those naming `from_cls` as a base.
After `redirect_subclasses(tm, F, T)` succeeds, (1) `tm.__new__` is the
substituting closure that captured `type(T)` and `type(T).__new__` at
install time; (2) running that closure on ANY base list dispatches to the
captured `type(T).__new__` with `type(T)` as the metaclass argument in
place of the declared metaclass; (3) when `F` does not occur in the bases
the base list is passed through unchanged — the construction path is still
replaced; and (4) a class the captured allocation builds gets `type(T)` as
its resulting metaclass. -/
theorem redirect_affects_all_construction (s : State) (tm F T : ClassId)
    (hgov : ((mroOf s (mclsOf s F)).contains tm) = true) :
    redirect_subclasses s tm F T
      = (setNewSlot s tm (NewImpl.redirect F T (mclsOf s T) (lookupNewD s (mclsOf s T))),
         Except.ok ())
    ∧ (∀ (f : Nat) (m₀ : ClassId) (bases : List ClassId) (ns : PyDict) (s₂ : State),
        runNew (Nat.succ f)
            (NewImpl.redirect F T (mclsOf s T) (lookupNewD s (mclsOf s T))) s₂ m₀ bases ns
          = runNew f (lookupNewD s (mclsOf s T)) s₂ (mclsOf s T)
              (bases.map (fun b => if b = F then T else b)) ns)
    ∧ (∀ bases : List ClassId, ¬ F ∈ bases →
        bases.map (fun b => if b = F then T else b) = bases)
    ∧ (∀ (s₂ s₃ : State) (bases : List ClassId) (ns : PyDict) (c : ClassId),
        typeNewBuild s₂ (mclsOf s T) bases ns = (s₃, Except.ok c) →
        ((getClass s₃ c).map ClassObj.mcls) = some (mclsOf s T)) := by
  refine ⟨?_, ?_, ?_, ?_⟩
  · unfold redirect_subclasses
    have h' : tm ∈ mroOf s (mclsOf s F) := by simpa using hgov
    simp [h']
  · intro f m₀ bases ns s₂
    rfl
  · intro bases hFb
    conv_rhs => rw [← List.map_id bases]
    apply List.map_congr_left
    intro b hb
    have : ¬ b = F := fun h => hFb (h ▸ hb)
    simp [this]
  · intro s₂ s₃ bases ns c hb
    obtain ⟨hc, linear, hm, hs⟩ := typeNewBuild_ok s₂ (mclsOf s T) bases ns s₃ c hb
    subst hc
    rw [hs]
    show ((if s₂.nextId = s₂.nextId then _ else findC s₂.classes s₂.nextId).map
      ClassObj.mcls) = _
    rw [if_pos rfl]
    rfl

/-- Witness for C10: in scenario E (before any install), family `MA`
(id `3`) governs `DerivedA` (id `5`); installing the redirect to
`ConcreteA` (id `6`) patches `MA.__new__`, and a base list `[7]` not
containing `5` is passed through unchanged while still being rebuilt under
`type(ConcreteA) = MA`. -/
theorem redirect_affects_all_construction_witness :
    ((mroOf stE4 (mclsOf stE4 5)).contains 3) = true
    ∧ redirect_subclasses stE4 3 5 6
        = (setNewSlot stE4 3
            (NewImpl.redirect 5 6 (mclsOf stE4 6) (lookupNewD stE4 (mclsOf stE4 6))),
           Except.ok ())
    ∧ runNew 10 (NewImpl.redirect 5 6 (mclsOf stE4 6) (lookupNewD stE4 (mclsOf stE4 6)))
          stE7 3 [7] emptyNs
        = runNew 9 (lookupNewD stE4 (mclsOf stE4 6)) stE7 (mclsOf stE4 6)
            ([7].map (fun b => if b = 5 then 6 else b)) emptyNs
    ∧ [7].map (fun b => if b = (5 : ClassId) then 6 else b) = [7] := by
  have hmain := redirect_affects_all_construction stE4 3 5 6 rfl
  exact ⟨rfl, hmain.1, hmain.2.1 9 3 [7] emptyNs stE7, hmain.2.2.1 [7] (by decide)⟩

end AmaranthUtils
